import Mathlib

/-!
Shallow embedding of `src/index.tsx`, the MATE host shell: a React component
that fetches an HTML payload, mounts it in an iframe, and synchronizes an
onboarding gate and a theme across the frame boundary via `postMessage`.

The component state mirrors the `useState` hooks of `App` (lines 26-29).
Event handlers and the two `useEffect` blocks (lines 38-50 and 62-71) become
total step functions on that state.  The `setTimeout(..., 100)` calls of the
broadcast effect become a FIFO queue of pending callbacks, each recording the
values its closure captured.  Outbound `postMessage` calls are logged, each
together with the value of `showDisclaimer` at the instant of the send (a
ghost observation used to compare a message payload with the gate at send
time).
-/

/-- The `themeMode` hook value, `'dark' | 'light'` (line 26). -/
inductive Theme
  | dark
  | light
  deriving DecidableEq

/-- `const newMode = themeMode === 'dark' ? 'light' : 'dark'` (line 54). -/
def Theme.toggle : Theme → Theme
  | .dark => .light
  | .light => .dark

/-- The string a theme is serialized as in a `postMessage` payload. -/
def Theme.wire : Theme → String
  | .dark => "dark"
  | .light => "light"

/-- A `postMessage` payload value: the shell only ever sends strings and
booleans in the `payload` field. -/
inductive JsonVal
  | str (s : String)
  | bool (b : Bool)
  deriving DecidableEq

/-- The `{ type, payload }` object posted to the iframe (lines 57, 66, 68). -/
structure PostedMsg where
  type : String
  payload : JsonVal
  deriving DecidableEq

/-- A message as it appears in the send log, paired with the value of
`showDisclaimer` at the instant the message was posted. -/
structure SentRecord where
  msg : PostedMsg
  gateAtSend : Bool
  deriving DecidableEq

/-- A pending `setTimeout` callback scheduled by the broadcast effect
(lines 65-69).  The closure captures `showDisclaimer` and `themeMode` as of
the render that ran the effect; the delay is the literal 100 of line 69. -/
structure PendingBroadcast where
  capturedDisclaimer : Bool
  capturedTheme : Theme
  delayMs : Nat
  deriving DecidableEq

/-- The component state (lines 26-29) plus the observable interaction logs:
the queue of pending timeouts, the ordered log of posted messages, the
`console.error` log, and the URLs the load effect has fetched. -/
structure AppState where
  themeMode : Theme
  showDisclaimer : Bool
  activeModel : String
  gameHtml : Option String
  pending : List PendingBroadcast
  sent : List SentRecord
  consoleErrors : List String
  fetchesStarted : List String
  deriving DecidableEq

/-- `activeModel === 'gemini3' ? './init/gemini3.html' : './init/gemini2p5.html'`
(line 40). -/
def urlFor (m : String) : String :=
  if m = "gemini3" then "./init/gemini3.html" else "./init/gemini2p5.html"

/-- Whether an iframe with a usable `contentWindow` is mounted for this
`gameHtml` value: the iframe is rendered exactly when `gameHtml` is truthy
(line 137), and the empty string is falsy in JavaScript. -/
def readyHtml : Option String → Bool
  | some h => h != ""
  | none => false

/-- `iframeRef.current && iframeRef.current.contentWindow` (lines 56, 63). -/
def surfaceReady (s : AppState) : Bool :=
  readyHtml s.gameHtml

/-- A `postMessage` on the contentWindow of the iframe: append the message to
the send log, recording the gate value at send time. -/
def post (m : PostedMsg) (s : AppState) : AppState :=
  { s with sent := s.sent ++ [{ msg := m, gateAtSend := s.showDisclaimer }] }

/-- The broadcast effect body (lines 62-71): when the iframe ref is live,
schedule a timeout of 100ms whose closure captures the current
`showDisclaimer` and `themeMode`; otherwise do nothing.  The effect runs
after every render in which `showDisclaimer`, `gameHtml` or `themeMode`
changed (dependency array, line 71). -/
def scheduleBroadcast (s : AppState) : AppState :=
  if surfaceReady s then
    { s with pending := s.pending ++
        [{ capturedDisclaimer := s.showDisclaimer
           capturedTheme := s.themeMode
           delayMs := 100 }] }
  else s

/-- Lines 56-58: post `SET_THEME` with the current mode when the iframe ref
is live, else drop the send. -/
def postThemeNow (s : AppState) : AppState :=
  if surfaceReady s then
    post { type := "SET_THEME", payload := JsonVal.str s.themeMode.wire } s
  else s

/-- `toggleTheme` (lines 53-59): flip the mode, post `SET_THEME(newMode)`
guarded by the ref check, then the broadcast effect re-runs because
`themeMode` is in its dependency array. -/
def stepToggle (s : AppState) : AppState :=
  scheduleBroadcast (postThemeNow { s with themeMode := s.themeMode.toggle })

/-- The Start button handler `setShowDisclaimer(false)` (line 169).  The
button is only rendered while `showDisclaimer` is true (line 147), and a
`setState` to an identical value bails out of re-rendering, so confirming
while already dismissed is the identity.  On a real transition the broadcast
effect re-runs because `showDisclaimer` is in its dependency array. -/
def stepConfirm (s : AppState) : AppState :=
  if s.showDisclaimer then scheduleBroadcast { s with showDisclaimer := false } else s

/-- The body of a scheduled timeout (lines 66-68): re-check the ref via
optional chaining at fire time, then post `PAUSE_GAME` with the captured
`showDisclaimer` followed by `SET_THEME` with the captured `themeMode`. -/
def sendTimerMsgs (p : PendingBroadcast) (s : AppState) : AppState :=
  if surfaceReady s then
    post { type := "SET_THEME", payload := JsonVal.str p.capturedTheme.wire }
      (post { type := "PAUSE_GAME", payload := JsonVal.bool p.capturedDisclaimer } s)
  else s

/-- Fire the oldest pending timeout; timeouts with equal delays fire in FIFO
order in the browser event loop. -/
def stepFireTimer (s : AppState) : AppState :=
  match s.pending with
  | [] => s
  | p :: rest => sendTimerMsgs p { s with pending := rest }

/-- A fetch started by `load` (lines 39-48) resolves: `setGameHtml(html)` is
called unconditionally (line 44), the iframe (re)mounts with the new
`srcDoc`, and the broadcast effect re-runs because `gameHtml` is in its
dependency array.  A `setState` to the identical value bails out. -/
def stepFetchOk (html : String) (s : AppState) : AppState :=
  if s.gameHtml = some html then s
  else scheduleBroadcast { s with gameHtml := some html }

/-- The fetch rejects: `console.error("Failed to load game")` (line 46) and
nothing else happens. -/
def stepFetchFail (s : AppState) : AppState :=
  { s with consoleErrors := s.consoleErrors ++ ["Failed to load game"] }

/-- The externally triggerable events of the shell: the two user controls,
expiry of the oldest scheduled timeout, and resolution or rejection of the
in-flight fetch. -/
inductive Ev
  | toggle
  | confirm
  | fireTimer
  | fetchOk (html : String)
  | fetchFail
  deriving DecidableEq

def step : Ev → AppState → AppState
  | .toggle, s => stepToggle s
  | .confirm, s => stepConfirm s
  | .fireTimer, s => stepFireTimer s
  | .fetchOk h, s => stepFetchOk h s
  | .fetchFail, s => stepFetchFail s

/-- Run a finite sequence of events from a state. -/
def run (s : AppState) : List Ev → AppState
  | [] => s
  | e :: es => run (step e s) es

/-- Let the settle delay elapse: fire every pending timeout, oldest first. -/
def settleAux (s : AppState) : List PendingBroadcast → AppState
  | [] => s
  | p :: rest => settleAux (sendTimerMsgs p s) rest

def settle (s : AppState) : AppState :=
  settleAux { s with pending := [] } s.pending

/-- Apply `toggleTheme` a number of times in succession. -/
def toggles : Nat → AppState → AppState
  | 0, s => s
  | n + 1, s => toggles n (stepToggle s)

/-- The initial hook values (lines 26-29): light theme, disclaimer shown,
`activeModel` set to `gemini3`, no payload yet.  The load effect runs once
on mount and starts the fetch of `urlFor activeModel` (lines 38-50); the
broadcast effect also runs but its ref guard fails (no iframe yet). -/
def initState : AppState :=
  { themeMode := Theme.light
    showDisclaimer := true
    activeModel := "gemini3"
    gameHtml := none
    pending := []
    sent := []
    consoleErrors := []
    fetchesStarted := [urlFor "gemini3"] }

/-- The payload of the last `SET_THEME` message of a send log, if any. -/
def lastSetTheme : List SentRecord → Option JsonVal
  | [] => none
  | r :: rest =>
    match lastSetTheme rest with
    | some v => some v
    | none => if r.msg.type = "SET_THEME" then some r.msg.payload else none

/-- The two records a fired timeout appends when the surface is live, given
the gate value `g` at fire time. -/
def timerRecords (g : Bool) (p : PendingBroadcast) : List SentRecord :=
  [{ msg := { type := "PAUSE_GAME", payload := JsonVal.bool p.capturedDisclaimer }
     gateAtSend := g },
   { msg := { type := "SET_THEME", payload := JsonVal.str p.capturedTheme.wire }
     gateAtSend := g }]

/-- The records appended by firing a whole queue of timeouts in order. -/
def timerLog (g : Bool) : List PendingBroadcast → List SentRecord
  | [] => []
  | p :: rest => timerRecords g p ++ timerLog g rest

/-- The outbound wire shape of section 6 of the spec: a discriminated
`{type, payload}` with `SET_THEME` carrying `"dark"` or `"light"` and
`PAUSE_GAME` carrying a boolean. -/
def wireShape (m : PostedMsg) : Prop :=
  (m.type = "SET_THEME" ∧ (m.payload = JsonVal.str "dark" ∨ m.payload = JsonVal.str "light")) ∨
  (m.type = "PAUSE_GAME" ∧ (m.payload = JsonVal.bool true ∨ m.payload = JsonVal.bool false))

/-- Settled synchronization: if every pending timeout fired now, the last
`SET_THEME` payload in the log would equal the rendered theme. -/
def themeAgrees (s : AppState) : Prop :=
  lastSetTheme (s.sent ++ timerLog s.showDisclaimer s.pending)
    = some (JsonVal.str s.themeMode.wire)

/-- The reachable-state invariant: every logged message is well shaped, and,
whenever the surface is live, the settled log agrees with the theme. -/
def ShellInv (s : AppState) : Prop :=
  (∀ r ∈ s.sent, wireShape r.msg) ∧ (surfaceReady s = true → themeAgrees s)

/-! ### The load effect in isolation (lines 38-50)

For the stale-response question the relevant machinery is the `load`
effect: it runs whenever `activeModel` changes, starts a fetch of the URL
for the new value, and each fetch, on resolution, calls `setGameHtml`
unconditionally — there is no comparison of the resolving fetch against the
currently desired variant, and no cleanup/abort on re-run.  This small model
exposes exactly that mechanism, with the fetch in-flight set explicit. -/

/-- The slice of component state the load effect touches, with the multiset
of URLs whose fetches are in flight made explicit. -/
structure LoadState where
  activeModel : String
  inFlight : List String
  gameHtml : Option String
  deriving DecidableEq

/-- Events of the load mechanism: `setActiveModel(v)` (which re-runs the
effect and starts a fetch of `urlFor v`; a `setState` to an identical value
bails out), and resolution or rejection of one in-flight fetch. -/
inductive LoadEv
  | request (variant : String)
  | resolveOk (url : String) (content : String)
  | resolveFail (url : String)
  deriving DecidableEq

def loadStep : LoadEv → LoadState → LoadState
  | .request v, s =>
    if v = s.activeModel then s
    else { s with activeModel := v, inFlight := s.inFlight ++ [urlFor v] }
  | .resolveOk url content, s =>
    if url ∈ s.inFlight then
      { s with inFlight := s.inFlight.erase url, gameHtml := some content }
    else s
  | .resolveFail url, s =>
    if url ∈ s.inFlight then { s with inFlight := s.inFlight.erase url } else s

def runLoad (s : LoadState) : List LoadEv → LoadState
  | [] => s
  | e :: es => runLoad (loadStep e s) es

/-- At mount the effect fetches the URL for the initial `activeModel`. -/
def loadInit : LoadState :=
  { activeModel := "gemini3"
    inFlight := [urlFor "gemini3"]
    gameHtml := none }

/-! ### Elementary lemmas about the step functions -/

theorem Theme.toggle_toggle (t : Theme) : t.toggle.toggle = t := by
  cases t <;> rfl

theorem Theme.wire_cases (t : Theme) : t.wire = "dark" ∨ t.wire = "light" := by
  cases t
  · exact Or.inl rfl
  · exact Or.inr rfl

@[simp] theorem post_sent (m : PostedMsg) (s : AppState) :
    (post m s).sent = s.sent ++ [{ msg := m, gateAtSend := s.showDisclaimer }] := rfl

@[simp] theorem post_pending (m : PostedMsg) (s : AppState) :
    (post m s).pending = s.pending := rfl

@[simp] theorem post_themeMode (m : PostedMsg) (s : AppState) :
    (post m s).themeMode = s.themeMode := rfl

@[simp] theorem post_showDisclaimer (m : PostedMsg) (s : AppState) :
    (post m s).showDisclaimer = s.showDisclaimer := rfl

@[simp] theorem post_gameHtml (m : PostedMsg) (s : AppState) :
    (post m s).gameHtml = s.gameHtml := rfl

@[simp] theorem surfaceReady_post (m : PostedMsg) (s : AppState) :
    surfaceReady (post m s) = surfaceReady s := rfl

@[simp] theorem scheduleBroadcast_sent (s : AppState) :
    (scheduleBroadcast s).sent = s.sent := by
  unfold scheduleBroadcast; split <;> rfl

@[simp] theorem scheduleBroadcast_themeMode (s : AppState) :
    (scheduleBroadcast s).themeMode = s.themeMode := by
  unfold scheduleBroadcast; split <;> rfl

@[simp] theorem scheduleBroadcast_showDisclaimer (s : AppState) :
    (scheduleBroadcast s).showDisclaimer = s.showDisclaimer := by
  unfold scheduleBroadcast; split <;> rfl

@[simp] theorem scheduleBroadcast_gameHtml (s : AppState) :
    (scheduleBroadcast s).gameHtml = s.gameHtml := by
  unfold scheduleBroadcast; split <;> rfl

@[simp] theorem surfaceReady_scheduleBroadcast (s : AppState) :
    surfaceReady (scheduleBroadcast s) = surfaceReady s := by
  unfold surfaceReady; rw [scheduleBroadcast_gameHtml]

theorem scheduleBroadcast_ready (s : AppState) (h : surfaceReady s = true) :
    scheduleBroadcast s = { s with pending := s.pending ++
      [{ capturedDisclaimer := s.showDisclaimer
         capturedTheme := s.themeMode
         delayMs := 100 }] } := by
  unfold scheduleBroadcast; rw [if_pos h]

theorem scheduleBroadcast_not_ready (s : AppState) (h : surfaceReady s = false) :
    scheduleBroadcast s = s := by
  unfold scheduleBroadcast; rw [if_neg (by simp [h])]

@[simp] theorem postThemeNow_pending (s : AppState) :
    (postThemeNow s).pending = s.pending := by
  unfold postThemeNow; split <;> rfl

@[simp] theorem postThemeNow_themeMode (s : AppState) :
    (postThemeNow s).themeMode = s.themeMode := by
  unfold postThemeNow; split <;> rfl

@[simp] theorem postThemeNow_showDisclaimer (s : AppState) :
    (postThemeNow s).showDisclaimer = s.showDisclaimer := by
  unfold postThemeNow; split <;> rfl

@[simp] theorem postThemeNow_gameHtml (s : AppState) :
    (postThemeNow s).gameHtml = s.gameHtml := by
  unfold postThemeNow; split <;> rfl

@[simp] theorem surfaceReady_postThemeNow (s : AppState) :
    surfaceReady (postThemeNow s) = surfaceReady s := by
  unfold surfaceReady; rw [postThemeNow_gameHtml]

theorem postThemeNow_ready (s : AppState) (h : surfaceReady s = true) :
    postThemeNow s
      = post { type := "SET_THEME", payload := JsonVal.str s.themeMode.wire } s := by
  unfold postThemeNow; rw [if_pos h]

theorem postThemeNow_not_ready (s : AppState) (h : surfaceReady s = false) :
    postThemeNow s = s := by
  unfold postThemeNow; rw [if_neg (by simp [h])]

@[simp] theorem sendTimerMsgs_pending (p : PendingBroadcast) (s : AppState) :
    (sendTimerMsgs p s).pending = s.pending := by
  unfold sendTimerMsgs; split <;> rfl

@[simp] theorem sendTimerMsgs_themeMode (p : PendingBroadcast) (s : AppState) :
    (sendTimerMsgs p s).themeMode = s.themeMode := by
  unfold sendTimerMsgs; split <;> rfl

@[simp] theorem sendTimerMsgs_showDisclaimer (p : PendingBroadcast) (s : AppState) :
    (sendTimerMsgs p s).showDisclaimer = s.showDisclaimer := by
  unfold sendTimerMsgs; split <;> rfl

@[simp] theorem sendTimerMsgs_gameHtml (p : PendingBroadcast) (s : AppState) :
    (sendTimerMsgs p s).gameHtml = s.gameHtml := by
  unfold sendTimerMsgs; split <;> rfl

@[simp] theorem surfaceReady_sendTimerMsgs (p : PendingBroadcast) (s : AppState) :
    surfaceReady (sendTimerMsgs p s) = surfaceReady s := by
  unfold surfaceReady; rw [sendTimerMsgs_gameHtml]

theorem sendTimerMsgs_sent_ready (p : PendingBroadcast) (s : AppState)
    (h : surfaceReady s = true) :
    (sendTimerMsgs p s).sent = s.sent ++ timerRecords s.showDisclaimer p := by
  unfold sendTimerMsgs; rw [if_pos h]
  simp [timerRecords]

theorem sendTimerMsgs_not_ready (p : PendingBroadcast) (s : AppState)
    (h : surfaceReady s = false) :
    sendTimerMsgs p s = s := by
  unfold sendTimerMsgs; rw [if_neg (by simp [h])]

@[simp] theorem stepToggle_themeMode (s : AppState) :
    (stepToggle s).themeMode = s.themeMode.toggle := by
  unfold stepToggle
  rw [scheduleBroadcast_themeMode, postThemeNow_themeMode]

@[simp] theorem stepToggle_showDisclaimer (s : AppState) :
    (stepToggle s).showDisclaimer = s.showDisclaimer := by
  unfold stepToggle
  rw [scheduleBroadcast_showDisclaimer, postThemeNow_showDisclaimer]

@[simp] theorem stepToggle_gameHtml (s : AppState) :
    (stepToggle s).gameHtml = s.gameHtml := by
  unfold stepToggle
  rw [scheduleBroadcast_gameHtml, postThemeNow_gameHtml]

@[simp] theorem surfaceReady_stepToggle (s : AppState) :
    surfaceReady (stepToggle s) = surfaceReady s := by
  unfold surfaceReady; rw [stepToggle_gameHtml]

theorem stepToggle_sent_ready (s : AppState) (h : surfaceReady s = true) :
    (stepToggle s).sent = s.sent ++
      [{ msg := { type := "SET_THEME", payload := JsonVal.str s.themeMode.toggle.wire }
         gateAtSend := s.showDisclaimer }] := by
  unfold stepToggle
  rw [scheduleBroadcast_sent,
    postThemeNow_ready { s with themeMode := s.themeMode.toggle } h, post_sent]

theorem stepToggle_pending_ready (s : AppState) (h : surfaceReady s = true) :
    (stepToggle s).pending = s.pending ++
      [{ capturedDisclaimer := s.showDisclaimer
         capturedTheme := s.themeMode.toggle
         delayMs := 100 }] := by
  unfold stepToggle
  rw [scheduleBroadcast_ready (postThemeNow { s with themeMode := s.themeMode.toggle })
    (by rw [surfaceReady_postThemeNow]; exact h)]
  rw [postThemeNow_pending, postThemeNow_showDisclaimer, postThemeNow_themeMode]

theorem stepToggle_sent_not_ready (s : AppState) (h : surfaceReady s = false) :
    (stepToggle s).sent = s.sent := by
  unfold stepToggle
  rw [scheduleBroadcast_sent,
    postThemeNow_not_ready { s with themeMode := s.themeMode.toggle } h]

theorem stepToggle_pending_not_ready (s : AppState) (h : surfaceReady s = false) :
    (stepToggle s).pending = s.pending := by
  unfold stepToggle
  rw [scheduleBroadcast_not_ready _ (by rw [surfaceReady_postThemeNow]; exact h),
    postThemeNow_pending]

theorem stepConfirm_shown (s : AppState) (h : s.showDisclaimer = true) :
    stepConfirm s = scheduleBroadcast { s with showDisclaimer := false } := by
  unfold stepConfirm; rw [if_pos h]

theorem stepConfirm_dismissed (s : AppState) (h : s.showDisclaimer = false) :
    stepConfirm s = s := by
  unfold stepConfirm; rw [if_neg (by simp [h])]

@[simp] theorem stepConfirm_sent (s : AppState) :
    (stepConfirm s).sent = s.sent := by
  unfold stepConfirm; split
  · rw [scheduleBroadcast_sent]
  · rfl

@[simp] theorem stepConfirm_themeMode (s : AppState) :
    (stepConfirm s).themeMode = s.themeMode := by
  unfold stepConfirm; split
  · rw [scheduleBroadcast_themeMode]
  · rfl

@[simp] theorem stepConfirm_gameHtml (s : AppState) :
    (stepConfirm s).gameHtml = s.gameHtml := by
  unfold stepConfirm; split
  · rw [scheduleBroadcast_gameHtml]
  · rfl

@[simp] theorem surfaceReady_stepConfirm (s : AppState) :
    surfaceReady (stepConfirm s) = surfaceReady s := by
  unfold surfaceReady; rw [stepConfirm_gameHtml]

@[simp] theorem stepFetchFail_eq (s : AppState) :
    stepFetchFail s = { s with consoleErrors := s.consoleErrors ++ ["Failed to load game"] } :=
  rfl

/-! ### Lemmas about the send log -/

theorem lastSetTheme_append_some (l₁ : List SentRecord) {l₂ : List SentRecord}
    {v : JsonVal} (h : lastSetTheme l₂ = some v) :
    lastSetTheme (l₁ ++ l₂) = some v := by
  induction l₁ with
  | nil => simpa using h
  | cons r rest ih =>
    rw [List.cons_append]
    unfold lastSetTheme
    rw [ih]

theorem lastSetTheme_append_none (l₁ : List SentRecord) {l₂ : List SentRecord}
    (h : lastSetTheme l₂ = none) :
    lastSetTheme (l₁ ++ l₂) = lastSetTheme l₁ := by
  induction l₁ with
  | nil => simpa using h
  | cons r rest ih =>
    rw [List.cons_append]
    unfold lastSetTheme
    rw [ih]

theorem lastSetTheme_timerRecords (g : Bool) (p : PendingBroadcast) :
    lastSetTheme (timerRecords g p) = some (JsonVal.str p.capturedTheme.wire) := by
  simp [timerRecords, lastSetTheme]

theorem lastSetTheme_concat_theme (l : List SentRecord) (v : JsonVal) (g : Bool) :
    lastSetTheme (l ++ [{ msg := { type := "SET_THEME", payload := v }, gateAtSend := g }])
      = some v := by
  apply lastSetTheme_append_some
  simp [lastSetTheme]

theorem timerLog_append (g : Bool) (l₁ l₂ : List PendingBroadcast) :
    timerLog g (l₁ ++ l₂) = timerLog g l₁ ++ timerLog g l₂ := by
  induction l₁ with
  | nil => simp [timerLog]
  | cons p rest ih => simp [timerLog, ih]

theorem timerLog_concat (g : Bool) (ps : List PendingBroadcast) (p : PendingBroadcast) :
    timerLog g (ps ++ [p]) = timerLog g ps ++ timerRecords g p := by
  rw [timerLog_append]
  simp [timerLog]

/-! ### Settling: firing the whole timeout queue -/

theorem settleAux_gameHtml (ps : List PendingBroadcast) :
    ∀ s : AppState, (settleAux s ps).gameHtml = s.gameHtml := by
  induction ps with
  | nil => intro s; rfl
  | cons p rest ih =>
    intro s
    unfold settleAux
    rw [ih, sendTimerMsgs_gameHtml]

theorem settleAux_themeMode (ps : List PendingBroadcast) :
    ∀ s : AppState, (settleAux s ps).themeMode = s.themeMode := by
  induction ps with
  | nil => intro s; rfl
  | cons p rest ih =>
    intro s
    unfold settleAux
    rw [ih, sendTimerMsgs_themeMode]

theorem settleAux_showDisclaimer (ps : List PendingBroadcast) :
    ∀ s : AppState, (settleAux s ps).showDisclaimer = s.showDisclaimer := by
  induction ps with
  | nil => intro s; rfl
  | cons p rest ih =>
    intro s
    unfold settleAux
    rw [ih, sendTimerMsgs_showDisclaimer]

theorem settleAux_sent (ps : List PendingBroadcast) :
    ∀ s : AppState, surfaceReady s = true →
      (settleAux s ps).sent = s.sent ++ timerLog s.showDisclaimer ps := by
  induction ps with
  | nil => intro s _; simp [settleAux, timerLog]
  | cons p rest ih =>
    intro s h
    unfold settleAux
    rw [ih (sendTimerMsgs p s) (by rw [surfaceReady_sendTimerMsgs]; exact h)]
    rw [sendTimerMsgs_sent_ready p s h, sendTimerMsgs_showDisclaimer]
    simp [timerLog, List.append_assoc]

@[simp] theorem settle_themeMode (s : AppState) :
    (settle s).themeMode = s.themeMode := by
  unfold settle
  rw [settleAux_themeMode]

@[simp] theorem settle_showDisclaimer (s : AppState) :
    (settle s).showDisclaimer = s.showDisclaimer := by
  unfold settle
  rw [settleAux_showDisclaimer]

theorem settle_sent (s : AppState) (h : surfaceReady s = true) :
    (settle s).sent = s.sent ++ timerLog s.showDisclaimer s.pending := by
  unfold settle
  rw [settleAux_sent s.pending { s with pending := [] } h]

/-- The heart of the synchronization argument: from a live, settled-agreeing
state, once every pending timeout has fired the last `SET_THEME` payload in
the log equals the rendered theme. -/
theorem settle_lastSetTheme (s : AppState) (h : surfaceReady s = true)
    (ha : themeAgrees s) :
    lastSetTheme (settle s).sent = some (JsonVal.str s.themeMode.wire) := by
  rw [settle_sent s h]
  exact ha

/-! ### Shape of individual messages -/

theorem wireShape_setTheme (t : Theme) :
    wireShape { type := "SET_THEME", payload := JsonVal.str t.wire } := by
  left
  refine ⟨rfl, ?_⟩
  rcases Theme.wire_cases t with h | h <;> rw [h]
  · exact Or.inl rfl
  · exact Or.inr rfl

theorem wireShape_pauseGame (b : Bool) :
    wireShape { type := "PAUSE_GAME", payload := JsonVal.bool b } := by
  right
  refine ⟨rfl, ?_⟩
  cases b
  · exact Or.inr rfl
  · exact Or.inl rfl

/-- If the newest pending timeout captured the current theme, the settled
log agrees with the theme, whatever came before it in the queue. -/
theorem themeAgrees_of_pending_concat (s : AppState) (ps : List PendingBroadcast)
    (p : PendingBroadcast) (hp : s.pending = ps ++ [p])
    (ht : p.capturedTheme = s.themeMode) : themeAgrees s := by
  unfold themeAgrees
  rw [hp, timerLog_concat, ← List.append_assoc]
  exact lastSetTheme_append_some _ (by rw [lastSetTheme_timerRecords, ht])

/-! ### Step characterizations used by the invariant -/

theorem stepConfirm_pending_shown_ready (s : AppState) (hg : s.showDisclaimer = true)
    (hr : surfaceReady s = true) :
    (stepConfirm s).pending = s.pending ++
      [{ capturedDisclaimer := false, capturedTheme := s.themeMode, delayMs := 100 }] := by
  rw [stepConfirm_shown s hg,
    scheduleBroadcast_ready { s with showDisclaimer := false } hr]

theorem stepFireTimer_nil (s : AppState) (h : s.pending = []) :
    stepFireTimer s = s := by
  unfold stepFireTimer; rw [h]

theorem stepFireTimer_cons (s : AppState) (p : PendingBroadcast)
    (rest : List PendingBroadcast) (h : s.pending = p :: rest) :
    stepFireTimer s = sendTimerMsgs p { s with pending := rest } := by
  unfold stepFireTimer; rw [h]

theorem stepFetchOk_bail (html : String) (s : AppState) (h : s.gameHtml = some html) :
    stepFetchOk html s = s := by
  unfold stepFetchOk; rw [if_pos h]

theorem stepFetchOk_new (html : String) (s : AppState) (h : ¬s.gameHtml = some html) :
    stepFetchOk html s = scheduleBroadcast { s with gameHtml := some html } := by
  unfold stepFetchOk; rw [if_neg h]

/-! ### Preservation of the invariant by every event -/

theorem shellInv_toggle (s : AppState) (h : ShellInv s) : ShellInv (stepToggle s) := by
  rcases h with ⟨hs, _⟩
  constructor
  · intro r hr
    cases hc : surfaceReady s with
    | false =>
      rw [stepToggle_sent_not_ready s hc] at hr
      exact hs r hr
    | true =>
      rw [stepToggle_sent_ready s hc] at hr
      rcases List.mem_append.mp hr with h1 | h2
      · exact hs r h1
      · rw [List.mem_singleton] at h2
        rw [h2]
        exact wireShape_setTheme s.themeMode.toggle
  · intro hready
    rw [surfaceReady_stepToggle] at hready
    refine themeAgrees_of_pending_concat _ s.pending
      { capturedDisclaimer := s.showDisclaimer
        capturedTheme := s.themeMode.toggle
        delayMs := 100 } ?_ ?_
    · exact stepToggle_pending_ready s hready
    · rw [stepToggle_themeMode]

theorem shellInv_confirm (s : AppState) (h : ShellInv s) : ShellInv (stepConfirm s) := by
  rcases h with ⟨hs, ha⟩
  cases hg : s.showDisclaimer with
  | false =>
    rw [stepConfirm_dismissed s hg]
    exact ⟨hs, ha⟩
  | true =>
    constructor
    · intro r hr
      rw [stepConfirm_sent] at hr
      exact hs r hr
    · intro hready
      rw [surfaceReady_stepConfirm] at hready
      refine themeAgrees_of_pending_concat _ s.pending
        { capturedDisclaimer := false
          capturedTheme := s.themeMode
          delayMs := 100 } ?_ ?_
      · exact stepConfirm_pending_shown_ready s hg hready
      · rw [stepConfirm_themeMode]

theorem shellInv_fireTimer (s : AppState) (h : ShellInv s) : ShellInv (stepFireTimer s) := by
  rcases h with ⟨hs, ha⟩
  cases hp : s.pending with
  | nil =>
    rw [stepFireTimer_nil s hp]
    exact ⟨hs, ha⟩
  | cons p rest =>
    rw [stepFireTimer_cons s p rest hp]
    cases hc : surfaceReady s with
    | false =>
      rw [sendTimerMsgs_not_ready p { s with pending := rest } hc]
      constructor
      · intro r hr
        exact hs r hr
      · intro hready
        exact absurd (hc ▸ hready) (by simp)
    | true =>
      constructor
      · intro r hr
        rw [sendTimerMsgs_sent_ready p { s with pending := rest } hc] at hr
        rcases List.mem_append.mp hr with h1 | h2
        · exact hs r h1
        · unfold timerRecords at h2
          simp only [List.mem_cons, List.mem_singleton, List.not_mem_nil, or_false] at h2
          rcases h2 with h2 | h2
          · rw [h2]; exact wireShape_pauseGame p.capturedDisclaimer
          · rw [h2]; exact wireShape_setTheme p.capturedTheme
      · intro _
        have hagrees := ha hc
        unfold themeAgrees at hagrees ⊢
        rw [sendTimerMsgs_sent_ready p { s with pending := rest } hc,
          sendTimerMsgs_pending, sendTimerMsgs_showDisclaimer,
          sendTimerMsgs_themeMode]
        rw [hp] at hagrees
        unfold timerLog at hagrees
        rw [← List.append_assoc] at hagrees
        exact hagrees

theorem shellInv_fetchOk (html : String) (s : AppState) (h : ShellInv s) :
    ShellInv (stepFetchOk html s) := by
  rcases h with ⟨hs, ha⟩
  by_cases hb : s.gameHtml = some html
  · rw [stepFetchOk_bail html s hb]
    exact ⟨hs, ha⟩
  · rw [stepFetchOk_new html s hb]
    cases hc : surfaceReady { s with gameHtml := some html } with
    | false =>
      rw [scheduleBroadcast_not_ready _ hc]
      constructor
      · intro r hr
        exact hs r hr
      · intro hready
        exact absurd (hc ▸ hready) (by simp)
    | true =>
      constructor
      · intro r hr
        rw [scheduleBroadcast_sent] at hr
        exact hs r hr
      · intro _
        refine themeAgrees_of_pending_concat _ s.pending
          { capturedDisclaimer := s.showDisclaimer
            capturedTheme := s.themeMode
            delayMs := 100 } ?_ ?_
        · rw [scheduleBroadcast_ready _ hc]
        · rw [scheduleBroadcast_themeMode]

theorem shellInv_fetchFail (s : AppState) (h : ShellInv s) : ShellInv (stepFetchFail s) := by
  rcases h with ⟨hs, ha⟩
  exact ⟨hs, ha⟩

theorem shellInv_step (e : Ev) (s : AppState) (h : ShellInv s) : ShellInv (step e s) := by
  cases e with
  | toggle => exact shellInv_toggle s h
  | confirm => exact shellInv_confirm s h
  | fireTimer => exact shellInv_fireTimer s h
  | fetchOk html => exact shellInv_fetchOk html s h
  | fetchFail => exact shellInv_fetchFail s h

theorem shellInv_run (es : List Ev) : ∀ s : AppState, ShellInv s → ShellInv (run s es) := by
  induction es with
  | nil => intro s h; exact h
  | cons e rest ih =>
    intro s h
    exact ih (step e s) (shellInv_step e s h)

theorem shellInv_init : ShellInv initState := by
  constructor
  · intro r hr
    simp [initState] at hr
  · intro h
    exact absurd h (by decide)

theorem reachable_shellInv (es : List Ev) : ShellInv (run initState es) :=
  shellInv_run es initState shellInv_init

/-! ### The variant selection never changes -/

@[simp] theorem post_activeModel (m : PostedMsg) (s : AppState) :
    (post m s).activeModel = s.activeModel := rfl

@[simp] theorem post_fetchesStarted (m : PostedMsg) (s : AppState) :
    (post m s).fetchesStarted = s.fetchesStarted := rfl

@[simp] theorem scheduleBroadcast_activeModel (s : AppState) :
    (scheduleBroadcast s).activeModel = s.activeModel := by
  unfold scheduleBroadcast; split <;> rfl

@[simp] theorem scheduleBroadcast_fetchesStarted (s : AppState) :
    (scheduleBroadcast s).fetchesStarted = s.fetchesStarted := by
  unfold scheduleBroadcast; split <;> rfl

@[simp] theorem postThemeNow_activeModel (s : AppState) :
    (postThemeNow s).activeModel = s.activeModel := by
  unfold postThemeNow; split <;> rfl

@[simp] theorem postThemeNow_fetchesStarted (s : AppState) :
    (postThemeNow s).fetchesStarted = s.fetchesStarted := by
  unfold postThemeNow; split <;> rfl

@[simp] theorem sendTimerMsgs_activeModel (p : PendingBroadcast) (s : AppState) :
    (sendTimerMsgs p s).activeModel = s.activeModel := by
  unfold sendTimerMsgs; split <;> rfl

@[simp] theorem sendTimerMsgs_fetchesStarted (p : PendingBroadcast) (s : AppState) :
    (sendTimerMsgs p s).fetchesStarted = s.fetchesStarted := by
  unfold sendTimerMsgs; split <;> rfl

theorem step_activeModel (e : Ev) (s : AppState) :
    (step e s).activeModel = s.activeModel := by
  cases e <;>
    simp [step, stepToggle, stepConfirm, stepFireTimer, stepFetchOk, stepFetchFail] <;>
    split <;> simp

theorem step_fetchesStarted (e : Ev) (s : AppState) :
    (step e s).fetchesStarted = s.fetchesStarted := by
  cases e <;>
    simp [step, stepToggle, stepConfirm, stepFireTimer, stepFetchOk, stepFetchFail] <;>
    split <;> simp

theorem run_activeModel (es : List Ev) :
    ∀ s : AppState, (run s es).activeModel = s.activeModel := by
  induction es with
  | nil => intro s; rfl
  | cons e rest ih =>
    intro s
    unfold run
    rw [ih, step_activeModel]

theorem run_fetchesStarted (es : List Ev) :
    ∀ s : AppState, (run s es).fetchesStarted = s.fetchesStarted := by
  induction es with
  | nil => intro s; rfl
  | cons e rest ih =>
    intro s
    unfold run
    rw [ih, step_fetchesStarted]

/-! ### Iterated toggles -/

theorem toggles_gameHtml (n : Nat) :
    ∀ s : AppState, (toggles n s).gameHtml = s.gameHtml := by
  induction n with
  | zero => intro s; rfl
  | succ k ih =>
    intro s
    unfold toggles
    rw [ih, stepToggle_gameHtml]

theorem surfaceReady_toggles (n : Nat) (s : AppState) :
    surfaceReady (toggles n s) = surfaceReady s := by
  unfold surfaceReady
  rw [toggles_gameHtml]

/-- A single toggle from a live state re-establishes settled agreement all by
itself: the timeout it schedules is the newest in the queue and captured the
new theme. -/
theorem stepToggle_themeAgrees (s : AppState) (h : surfaceReady s = true) :
    themeAgrees (stepToggle s) := by
  refine themeAgrees_of_pending_concat _ s.pending
    { capturedDisclaimer := s.showDisclaimer
      capturedTheme := s.themeMode.toggle
      delayMs := 100 } ?_ ?_
  · exact stepToggle_pending_ready s h
  · rw [stepToggle_themeMode]

theorem toggles_themeAgrees (n : Nat) :
    ∀ s : AppState, surfaceReady s = true → themeAgrees s →
      themeAgrees (toggles n s) := by
  induction n with
  | zero => intro s _ ha; exact ha
  | succ k ih =>
    intro s h ha
    unfold toggles
    exact ih (stepToggle s) (by rw [surfaceReady_stepToggle]; exact h)
      (stepToggle_themeAgrees s h)

/-! ### Per-event gate preservation (helper for the gate claims) -/

theorem showDisclaimer_step_preserved (e : Ev) (s : AppState)
    (h : s.showDisclaimer = false) : (step e s).showDisclaimer = false := by
  cases e with
  | toggle =>
    show (stepToggle s).showDisclaimer = false
    rw [stepToggle_showDisclaimer]; exact h
  | confirm =>
    show (stepConfirm s).showDisclaimer = false
    rw [stepConfirm_dismissed s h]; exact h
  | fireTimer =>
    show (stepFireTimer s).showDisclaimer = false
    cases hp : s.pending with
    | nil => rw [stepFireTimer_nil s hp]; exact h
    | cons p rest =>
      rw [stepFireTimer_cons s p rest hp, sendTimerMsgs_showDisclaimer]
      exact h
  | fetchOk html =>
    show (stepFetchOk html s).showDisclaimer = false
    by_cases hb : s.gameHtml = some html
    · rw [stepFetchOk_bail html s hb]; exact h
    · rw [stepFetchOk_new html s hb, scheduleBroadcast_showDisclaimer]; exact h
  | fetchFail => exact h

/-! ### Claims -/

/-- C2: for every finite sequence of theme toggles performed from any
reachable state in which the surface is mounted and ready, once the settle
delay has elapsed (every pending timeout has fired) the payload of the last
`SET_THEME` message broadcast equals the rendered theme of the shell. -/
theorem c2_theme_broadcast_agree (es : List Ev) (n : Nat)
    (hr : surfaceReady (run initState es) = true) :
    lastSetTheme (settle (toggles n (run initState es))).sent
      = some (JsonVal.str ((settle (toggles n (run initState es))).themeMode).wire) := by
  have ha : themeAgrees (run initState es) := (reachable_shellInv es).2 hr
  have hr2 : surfaceReady (toggles n (run initState es)) = true := by
    rw [surfaceReady_toggles]; exact hr
  have ha2 : themeAgrees (toggles n (run initState es)) :=
    toggles_themeAgrees n (run initState es) hr ha
  rw [settle_themeMode]
  exact settle_lastSetTheme _ hr2 ha2

theorem c2_witness :
    surfaceReady (run initState [Ev.fetchOk "<game>"]) = true ∧
    lastSetTheme (settle (toggles 2 (run initState [Ev.fetchOk "<game>"]))).sent
      = some (JsonVal.str
          ((settle (toggles 2 (run initState [Ev.fetchOk "<game>"]))).themeMode).wire) :=
  ⟨by decide, c2_theme_broadcast_agree [Ev.fetchOk "<game>"] 2 (by decide)⟩

/-- C4: when the fetch rejects, the handler only logs `console.error`; the
payload, the mount status of the surface, the message log, the timeout queue,
the theme and the gate are all preserved unchanged. -/
theorem c4_fetch_failure_preserves_state (s : AppState) :
    (stepFetchFail s).gameHtml = s.gameHtml ∧
    surfaceReady (stepFetchFail s) = surfaceReady s ∧
    (stepFetchFail s).sent = s.sent ∧
    (stepFetchFail s).pending = s.pending ∧
    (stepFetchFail s).themeMode = s.themeMode ∧
    (stepFetchFail s).showDisclaimer = s.showDisclaimer ∧
    (stepFetchFail s).consoleErrors = s.consoleErrors ++ ["Failed to load game"] :=
  ⟨rfl, rfl, rfl, rfl, rfl, rfl, rfl⟩

/-- C5: the gate starts Shown (`showDisclaimer = true`), `confirm` moves
Shown to Dismissed, no event ever resets a dismissed gate back to Shown, and
confirming while already Dismissed is the identity on the state — in
particular it posts nothing and schedules nothing, so `PAUSE_GAME(true)` is
never re-triggered by a repeated confirm. -/
theorem c5_gate_monotone :
    initState.showDisclaimer = true ∧
    (∀ s : AppState, s.showDisclaimer = true → (stepConfirm s).showDisclaimer = false) ∧
    (∀ (e : Ev) (s : AppState), s.showDisclaimer = false →
      (step e s).showDisclaimer = false) ∧
    (∀ s : AppState, s.showDisclaimer = false → stepConfirm s = s) := by
  refine ⟨rfl, ?_, showDisclaimer_step_preserved, ?_⟩
  · intro s h
    rw [stepConfirm_shown s h, scheduleBroadcast_showDisclaimer]
  · intro s h
    exact stepConfirm_dismissed s h

theorem c5_witness :
    (stepConfirm initState).showDisclaimer = false ∧
    (step Ev.confirm (stepConfirm initState)).showDisclaimer = false ∧
    stepConfirm (stepConfirm initState) = stepConfirm initState :=
  ⟨c5_gate_monotone.2.1 initState rfl,
   c5_gate_monotone.2.2.1 Ev.confirm (stepConfirm initState) (by decide),
   c5_gate_monotone.2.2.2 (stepConfirm initState) (by decide)⟩

/-- C7: toggling is an involution on the two-element theme; from any live
state, two successive toggles restore the original theme, each toggle posts
exactly one message immediately (a broadcast attempt), the last `SET_THEME`
posted equals the original theme, and this still holds after the settle
delay elapses. -/
theorem c7_toggle_involution :
    (∀ t : Theme, t.toggle.toggle = t) ∧
    (∀ s : AppState, surfaceReady s = true →
      (stepToggle (stepToggle s)).themeMode = s.themeMode ∧
      (stepToggle s).sent.length = s.sent.length + 1 ∧
      (stepToggle (stepToggle s)).sent.length = s.sent.length + 2 ∧
      lastSetTheme (stepToggle (stepToggle s)).sent
        = some (JsonVal.str s.themeMode.wire) ∧
      lastSetTheme (settle (stepToggle (stepToggle s))).sent
        = some (JsonVal.str s.themeMode.wire)) := by
  refine ⟨Theme.toggle_toggle, ?_⟩
  intro s h
  have h1 : surfaceReady (stepToggle s) = true := by
    rw [surfaceReady_stepToggle]; exact h
  have hsent1 := stepToggle_sent_ready s h
  have hsent2 := stepToggle_sent_ready (stepToggle s) h1
  have hthm : (stepToggle (stepToggle s)).themeMode = s.themeMode := by
    rw [stepToggle_themeMode, stepToggle_themeMode, Theme.toggle_toggle]
  refine ⟨hthm, ?_, ?_, ?_, ?_⟩
  · rw [hsent1]; simp
  · rw [hsent2, hsent1]; simp
  · rw [hsent2, lastSetTheme_concat_theme, stepToggle_themeMode, Theme.toggle_toggle]
  · have h2 : surfaceReady (stepToggle (stepToggle s)) = true := by
      rw [surfaceReady_stepToggle]; exact h1
    have ha : themeAgrees (stepToggle (stepToggle s)) :=
      stepToggle_themeAgrees (stepToggle s) h1
    rw [settle_lastSetTheme _ h2 ha, hthm]

theorem c7_witness :
    surfaceReady (stepFetchOk "g" initState) = true ∧
    (stepToggle (stepToggle (stepFetchOk "g" initState))).themeMode
      = (stepFetchOk "g" initState).themeMode :=
  ⟨by decide, (c7_toggle_involution.2 (stepFetchOk "g" initState) (by decide)).1⟩

/-- C9: with no live surface (no iframe or no contentWindow), every send
path drops the message silently: the immediate theme-toggle send posts
nothing while the toggle itself still completes, the effect schedules no
timeout, and a timeout that fires against a dead surface posts nothing.
All step functions are total, so no path can throw or block the caller. -/
theorem c9_send_noop_safe (s : AppState) (h : surfaceReady s = false) :
    (stepToggle s).sent = s.sent ∧
    (stepToggle s).pending = s.pending ∧
    (stepToggle s).themeMode = s.themeMode.toggle ∧
    (stepFireTimer s).sent = s.sent ∧
    scheduleBroadcast s = s ∧
    postThemeNow s = s := by
  refine ⟨stepToggle_sent_not_ready s h, stepToggle_pending_not_ready s h,
    stepToggle_themeMode s, ?_, scheduleBroadcast_not_ready s h,
    postThemeNow_not_ready s h⟩
  cases hp : s.pending with
  | nil => rw [stepFireTimer_nil s hp]
  | cons p rest =>
    rw [stepFireTimer_cons s p rest hp,
      sendTimerMsgs_not_ready p { s with pending := rest } h]

theorem c9_witness :
    surfaceReady initState = false ∧
    (stepToggle initState).sent = initState.sent ∧
    (stepToggle initState).themeMode = initState.themeMode.toggle :=
  ⟨by decide, (c9_send_noop_safe initState (by decide)).1,
   (c9_send_noop_safe initState (by decide)).2.2.1⟩

/-- C10: `activeModel` is initialized to `gemini3` and no event ever invokes
its setter, so across every event sequence it stays `gemini3`, the only URL
the load effect ever fetches is the primary variant resource, and the
secondary variant URL never appears among started fetches. -/
theorem c10_variant_constant (es : List Ev) :
    (run initState es).activeModel = "gemini3" ∧
    urlFor (run initState es).activeModel = "./init/gemini3.html" ∧
    (run initState es).fetchesStarted = ["./init/gemini3.html"] ∧
    "./init/gemini2p5.html" ∉ (run initState es).fetchesStarted := by
  have h1 : (run initState es).activeModel = "gemini3" := by
    rw [run_activeModel]
    rfl
  have h2 : (run initState es).fetchesStarted = ["./init/gemini3.html"] := by
    rw [run_fetchesStarted]
    decide
  refine ⟨h1, ?_, h2, ?_⟩
  · rw [h1]; decide
  · rw [h2]; decide

/-- C1 fails on the code: `load` has no stale-variant guard.  Concrete
interleaving: variant A (`gemini3`) is fetched by the initial load, variant B
(`gemini2p5`) is requested while A is still in flight, B resolves, then A
resolves afterwards — and the active payload ends as A-CONTENT, which the
claim forbids (it requires B-CONTENT and that A-CONTENT is never installed). -/
theorem c1_stale_counterexample :
    (runLoad loadInit
      [LoadEv.request "gemini2p5",
       LoadEv.resolveOk "./init/gemini2p5.html" "B-CONTENT",
       LoadEv.resolveOk "./init/gemini3.html" "A-CONTENT"]).gameHtml
      = some "A-CONTENT" ∧
    ("A-CONTENT" : String) ≠ "B-CONTENT" := by
  constructor <;> decide

/-- C1 (amended): the resolution handler installs its result unconditionally
(lines 42-44 compare nothing against the currently desired variant), so the
active payload equals the content of whichever resolution completed last —
last-response-wins, not last-requested-variant-wins.  The hypothesis only
says the URL has a fetch in flight; it may differ from `urlFor activeModel`.
(In the shipped shell the race is unreachable because the variant never
changes; see C10.) -/
theorem c1_amended_last_resolution_wins (s : LoadState) (url c : String)
    (h : url ∈ s.inFlight) :
    (loadStep (LoadEv.resolveOk url c) s).gameHtml = some c := by
  show (if url ∈ s.inFlight then
      { s with inFlight := s.inFlight.erase url, gameHtml := some c }
    else s).gameHtml = some c
  rw [if_pos h]

theorem c1_witness :
    ("./init/gemini3.html" ∈
      (LoadState.mk "gemini2p5" ["./init/gemini3.html"] none).inFlight) ∧
    (loadStep (LoadEv.resolveOk "./init/gemini3.html" "A-CONTENT")
      (LoadState.mk "gemini2p5" ["./init/gemini3.html"] none)).gameHtml
      = some "A-CONTENT" :=
  ⟨by decide, c1_amended_last_resolution_wins _ _ _ (by decide)⟩

/-- C3 fails on the code: confirming onboarding does not broadcast
immediately.  From a settled mounted state, `confirm` leaves the send log
unchanged and only schedules a timeout with a 100ms delay. -/
theorem c3_immediate_counterexample :
    (stepConfirm (settle (stepFetchOk "<game>" initState))).sent
      = (settle (stepFetchOk "<game>" initState)).sent ∧
    (stepConfirm (settle (stepFetchOk "<game>" initState))).pending.map
      PendingBroadcast.delayMs = [100] := by
  constructor <;> decide

/-- C3 (amended): the 100ms settle delay applies not only to the post-mount
broadcast but to every re-broadcast of the message pair.  Mounting a payload
schedules (not sends) the pair with delay 100.  Confirming onboarding sends
nothing immediately — it schedules a delayed broadcast capturing the
dismissed gate and the unchanged theme, which, once the delay elapses,
delivers `PAUSE_GAME(false)` followed by a `SET_THEME` re-send of the
current theme.  A theme change posts exactly one immediate message — the
single `SET_THEME(newMode)` of lines 56-58, never an immediate
`PAUSE_GAME` — and likewise schedules the paired re-broadcast with delay
100, which, once the delay elapses, delivers `PAUSE_GAME` of the unchanged
gate followed by `SET_THEME` of the new theme. -/
theorem c3_amended_delayed_rebroadcast :
    (∀ (s : AppState) (html : String), s.gameHtml = none → html ≠ "" →
      (stepFetchOk html s).sent = s.sent ∧
      (stepFetchOk html s).pending = s.pending ++
        [{ capturedDisclaimer := s.showDisclaimer
           capturedTheme := s.themeMode
           delayMs := 100 }]) ∧
    (∀ s : AppState, surfaceReady s = true → s.showDisclaimer = true →
      (stepConfirm s).sent = s.sent ∧
      (stepConfirm s).pending = s.pending ++
        [{ capturedDisclaimer := false, capturedTheme := s.themeMode, delayMs := 100 }] ∧
      ∃ l : List SentRecord, (settle (stepConfirm s)).sent = l ++
        [{ msg := { type := "PAUSE_GAME", payload := JsonVal.bool false }
           gateAtSend := false },
         { msg := { type := "SET_THEME", payload := JsonVal.str s.themeMode.wire }
           gateAtSend := false }]) ∧
    (∀ s : AppState, surfaceReady s = true →
      (stepToggle s).sent = s.sent ++
        [{ msg := { type := "SET_THEME", payload := JsonVal.str s.themeMode.toggle.wire }
           gateAtSend := s.showDisclaimer }] ∧
      (stepToggle s).pending = s.pending ++
        [{ capturedDisclaimer := s.showDisclaimer
           capturedTheme := s.themeMode.toggle
           delayMs := 100 }] ∧
      ∃ l : List SentRecord, (settle (stepToggle s)).sent = l ++
        [{ msg := { type := "PAUSE_GAME", payload := JsonVal.bool s.showDisclaimer }
           gateAtSend := s.showDisclaimer },
         { msg := { type := "SET_THEME", payload := JsonVal.str s.themeMode.toggle.wire }
           gateAtSend := s.showDisclaimer }]) := by
  refine ⟨?_, ?_, ?_⟩
  · intro s html hnone hne
    have hs := stepFetchOk_new html s (by intro hcon; rw [hnone] at hcon; cases hcon)
    have hready : surfaceReady { s with gameHtml := some html } = true := by
      simp [surfaceReady, readyHtml, hne]
    constructor
    · rw [hs, scheduleBroadcast_sent]
    · rw [hs, scheduleBroadcast_ready _ hready]
  · intro s hr hg
    refine ⟨stepConfirm_sent s, stepConfirm_pending_shown_ready s hg hr, ?_⟩
    have hr2 : surfaceReady (stepConfirm s) = true := by
      rw [surfaceReady_stepConfirm]; exact hr
    refine ⟨s.sent ++ timerLog false s.pending, ?_⟩
    have hshow : (stepConfirm s).showDisclaimer = false := by
      rw [stepConfirm_shown s hg, scheduleBroadcast_showDisclaimer]
    rw [settle_sent _ hr2, stepConfirm_pending_shown_ready s hg hr, hshow,
      stepConfirm_sent, timerLog_concat, ← List.append_assoc]
    rfl
  · intro s hr
    refine ⟨stepToggle_sent_ready s hr, stepToggle_pending_ready s hr, ?_⟩
    have hr2 : surfaceReady (stepToggle s) = true := by
      rw [surfaceReady_stepToggle]; exact hr
    refine ⟨(stepToggle s).sent ++ timerLog s.showDisclaimer s.pending, ?_⟩
    rw [settle_sent _ hr2, stepToggle_pending_ready s hr, stepToggle_showDisclaimer,
      timerLog_concat, ← List.append_assoc]
    rfl

theorem c3_witness :
    ((stepFetchOk "x" initState).sent = initState.sent ∧
     (stepFetchOk "x" initState).pending = initState.pending ++
       [{ capturedDisclaimer := initState.showDisclaimer
          capturedTheme := initState.themeMode
          delayMs := 100 }]) ∧
    ((stepConfirm (settle (stepFetchOk "x" initState))).sent
        = (settle (stepFetchOk "x" initState)).sent ∧
     (stepConfirm (settle (stepFetchOk "x" initState))).pending
        = (settle (stepFetchOk "x" initState)).pending ++
          [{ capturedDisclaimer := false
             capturedTheme := (settle (stepFetchOk "x" initState)).themeMode
             delayMs := 100 }] ∧
     ∃ l : List SentRecord,
       (settle (stepConfirm (settle (stepFetchOk "x" initState)))).sent = l ++
         [{ msg := { type := "PAUSE_GAME", payload := JsonVal.bool false }
            gateAtSend := false },
          { msg := { type := "SET_THEME"
                     payload := JsonVal.str (settle (stepFetchOk "x" initState)).themeMode.wire }
            gateAtSend := false }]) ∧
    ((stepToggle (settle (stepFetchOk "x" initState))).sent
        = (settle (stepFetchOk "x" initState)).sent ++
          [{ msg := { type := "SET_THEME"
                      payload :=
                        JsonVal.str (settle (stepFetchOk "x" initState)).themeMode.toggle.wire }
             gateAtSend := (settle (stepFetchOk "x" initState)).showDisclaimer }] ∧
     (stepToggle (settle (stepFetchOk "x" initState))).pending
        = (settle (stepFetchOk "x" initState)).pending ++
          [{ capturedDisclaimer := (settle (stepFetchOk "x" initState)).showDisclaimer
             capturedTheme := (settle (stepFetchOk "x" initState)).themeMode.toggle
             delayMs := 100 }] ∧
     ∃ l : List SentRecord,
       (settle (stepToggle (settle (stepFetchOk "x" initState)))).sent = l ++
         [{ msg := { type := "PAUSE_GAME"
                     payload :=
                       JsonVal.bool (settle (stepFetchOk "x" initState)).showDisclaimer }
            gateAtSend := (settle (stepFetchOk "x" initState)).showDisclaimer },
          { msg := { type := "SET_THEME"
                     payload :=
                       JsonVal.str (settle (stepFetchOk "x" initState)).themeMode.toggle.wire }
            gateAtSend := (settle (stepFetchOk "x" initState)).showDisclaimer }]) :=
  ⟨c3_amended_delayed_rebroadcast.1 initState "x" rfl (by decide),
   c3_amended_delayed_rebroadcast.2.1 (settle (stepFetchOk "x" initState))
     (by decide) (by decide),
   c3_amended_delayed_rebroadcast.2.2 (settle (stepFetchOk "x" initState))
     (by decide)⟩

/-- C6 fails on the code: on a fresh load the settled initial broadcast is
`PAUSE_GAME(true)` first (line 66) and `SET_THEME("light")` second (line 68),
the reverse of the order the claim states. -/
theorem c6_order_counterexample :
    (settle (stepFetchOk "<game>" initState)).sent.map SentRecord.msg
      = [{ type := "PAUSE_GAME", payload := JsonVal.bool true },
         { type := "SET_THEME", payload := JsonVal.str "light" }] ∧
    ([{ type := "PAUSE_GAME", payload := JsonVal.bool true },
      { type := "SET_THEME", payload := JsonVal.str "light" }] : List PostedMsg)
      ≠ [{ type := "SET_THEME", payload := JsonVal.str "light" },
         { type := "PAUSE_GAME", payload := JsonVal.bool true }] := by
  constructor <;> decide

/-- C6 (amended): on a fresh load with default theme Light and gate Shown,
once a (non-empty) payload mounts, the initial broadcast after the settle
delay is exactly `PAUSE_GAME(true)` followed by `SET_THEME("light")`. -/
theorem c6_amended_initial_broadcast (h : String) (hne : h ≠ "") :
    (settle (stepFetchOk h initState)).sent.map SentRecord.msg
      = [{ type := "PAUSE_GAME", payload := JsonVal.bool true },
         { type := "SET_THEME", payload := JsonVal.str "light" }] := by
  have hs := stepFetchOk_new h initState (by intro hcon; cases hcon)
  have hready : surfaceReady { initState with gameHtml := some h } = true := by
    simp [surfaceReady, readyHtml, hne]
  have hready2 : surfaceReady (stepFetchOk h initState) = true := by
    rw [hs, surfaceReady_scheduleBroadcast]; exact hready
  rw [settle_sent _ hready2, hs, scheduleBroadcast_ready _ hready]
  rfl

theorem c6_witness :
    (("x" : String) ≠ "") ∧
    (settle (stepFetchOk "x" initState)).sent.map SentRecord.msg
      = [{ type := "PAUSE_GAME", payload := JsonVal.bool true },
         { type := "SET_THEME", payload := JsonVal.str "light" }] :=
  ⟨by decide, c6_amended_initial_broadcast "x" (by decide)⟩

/-- C8 fails on its second half: a delayed broadcast carries the gate value
captured when it was scheduled, not the gate at send time.  Concrete trace:
mount, then confirm before the mount timeout fires, then the timeout fires —
the shell posts `PAUSE_GAME(true)` while the gate at send time is already
false (Dismissed). -/
theorem c8_gate_payload_counterexample :
    (stepFireTimer (stepConfirm (stepFetchOk "<game>" initState))).sent
      = [{ msg := { type := "PAUSE_GAME", payload := JsonVal.bool true }
           gateAtSend := false },
         { msg := { type := "SET_THEME", payload := JsonVal.str "light" }
           gateAtSend := false }] ∧
    JsonVal.bool true ≠ JsonVal.bool false := by
  constructor <;> decide

/-- C8 (amended): every message the shell ever posts, in any reachable
state, is a discriminated `{type, payload}` with type `SET_THEME` carrying
`"dark"` or `"light"` or type `PAUSE_GAME` carrying a boolean; and a
`PAUSE_GAME` payload equals the gate state read when its broadcast was
scheduled (the value captured by the timeout closure), which can differ
from the gate at delivery time if the gate changes during the settle delay. -/
theorem c8_amended_wire_shape :
    (∀ (es : List Ev) (r : SentRecord), r ∈ (run initState es).sent → wireShape r.msg) ∧
    (∀ (p : PendingBroadcast) (s : AppState), surfaceReady s = true →
      (sendTimerMsgs p s).sent = s.sent ++
        [{ msg := { type := "PAUSE_GAME", payload := JsonVal.bool p.capturedDisclaimer }
           gateAtSend := s.showDisclaimer },
         { msg := { type := "SET_THEME", payload := JsonVal.str p.capturedTheme.wire }
           gateAtSend := s.showDisclaimer }]) := by
  constructor
  · intro es r hr
    exact (reachable_shellInv es).1 r hr
  · intro p s h
    rw [sendTimerMsgs_sent_ready p s h]
    rfl

theorem c8_witness :
    wireShape { type := "PAUSE_GAME", payload := JsonVal.bool true } ∧
    (sendTimerMsgs
        { capturedDisclaimer := true, capturedTheme := Theme.light, delayMs := 100 }
        (stepFetchOk "g" initState)).sent
      = (stepFetchOk "g" initState).sent ++
        [{ msg := { type := "PAUSE_GAME", payload := JsonVal.bool true }
           gateAtSend := true },
         { msg := { type := "SET_THEME", payload := JsonVal.str "light" }
           gateAtSend := true }] :=
  ⟨c8_amended_wire_shape.1 [Ev.fetchOk "g", Ev.fireTimer]
      { msg := { type := "PAUSE_GAME", payload := JsonVal.bool true }, gateAtSend := true }
      (by decide),
   c8_amended_wire_shape.2
     { capturedDisclaimer := true, capturedTheme := Theme.light, delayMs := 100 }
     (stepFetchOk "g" initState) (by decide)⟩
